import Mathlib

/-!  Verification development for GitEcho (`echo.py`).

The Python source is shallowly embedded over `PyStr := List Char`.  Pure
string functions (`parse_ref_updates`, `build_refspecs`, `_slug`,
`_remote_parts`, `resolve_remote_name`, `remove_gitecho_hook_block`,
`install_hook`'s written content) are translated directly.  Effectful code is
translated with explicit oracles: `ls-remote` responses become a function
`Nat → PyStr → Except Unit PyStr` of the poll tick, file reads become
`Except Unit PyStr`, push transport outcomes become `PyStr → PushMode →
Option PyStr` (`none` = success, `some msg` = raised exception message), and
the `sync` command is modelled as the ordered list of observable events
(log lines, console prints, push attempts, confirmation calls) it performs.
-/

/-- Python strings are modelled as lists of characters. -/
abbrev PyStr : Type := List Char

/-- Convenience coercion from a Lean string literal to the `PyStr` model. -/
def str (s : String) : PyStr := s.toList

/-- Characters treated as whitespace by Python's `str.split()` / `str.strip()`
(and by `\s` of the `re` module).  Restricted to the Latin-1 range; wider
Unicode space characters are not modelled. -/
def isPySpace (c : Char) : Bool :=
  c == ' ' || c == '\t' || c == '\n' || c == '\r' || c == '\x0b' || c == '\x0c' ||
  c == '\x1c' || c == '\x1d' || c == '\x1e' || c == '\x1f' || c == '\x85' || c == '\xa0'

/-- Line-break characters recognised by Python's `str.splitlines` (the pair
`"\r\n"` is treated as a single break by `takeLine`). -/
def isLineBreakChar (c : Char) : Bool :=
  c == '\n' || c == '\r' || c == '\x0b' || c == '\x0c' ||
  c == '\x1c' || c == '\x1d' || c == '\x1e' || c == '\x85' ||
  c == '\u2028' || c == '\u2029'

/-- Python `str.split()` with no separator: split on runs of whitespace,
dropping empty fields.  Written with `foldr` (a new field group is opened at
each whitespace run, empty groups are discarded) so that it is structurally
recursive and evaluates by `decide`/`rfl`. -/
def pySplit (s : PyStr) : List PyStr :=
  (s.foldr
    (fun c acc =>
      if isPySpace c then [] :: acc
      else
        match acc with
        | [] => [[c]]
        | w :: ws => (c :: w) :: ws)
    [[]]).filter (fun w => !w.isEmpty)

/-- Split off the first line: returns (line, rest after the line break);
`"\r\n"` counts as a single break, as in Python's `splitlines`. -/
def takeLine : PyStr → PyStr × PyStr
  | [] => ([], [])
  | c :: t =>
    if c == '\r' then
      ([], match t with
           | [] => []
           | c2 :: t2 => if c2 == '\n' then t2 else c2 :: t2)
    else if isLineBreakChar c then ([], t)
    else
      let p := takeLine t
      (c :: p.1, p.2)

/-- Fuel-driven worker for `pySplitLines`; `takeLine` consumes at least one
character per round, so fuel `s.length` always suffices and the fuel-0 case is
unreachable on the initial call. -/
def pySplitLinesF : Nat → PyStr → List PyStr
  | 0, _ => []
  | _, [] => []
  | fuel + 1, c :: t =>
    let p := takeLine (c :: t)
    p.1 :: pySplitLinesF fuel p.2

/-- Python `str.splitlines()`. -/
def pySplitLines (s : PyStr) : List PyStr := pySplitLinesF s.length s

/-- Python `str.strip()` (both ends, default whitespace). -/
def pyStrip (s : PyStr) : PyStr :=
  ((s.dropWhile isPySpace).reverse.dropWhile isPySpace).reverse

/-- Python `str.lower()` (ASCII-faithful). -/
def pyLower (s : PyStr) : PyStr := s.map Char.toLower

/-- Python `str.rstrip("\n")`. -/
def rstripNL (s : PyStr) : PyStr :=
  (s.reverse.dropWhile (fun c => c == '\n')).reverse

/-- ZERO_SHA = "0" * 40 (echo.py line 21). -/
def ZERO_SHA : PyStr := List.replicate 40 '0'

/-- One captured ref update line: (local_ref, local_sha, remote_ref, remote_sha)
(the 4-tuple of `parse_ref_updates`). -/
structure RefUpdate where
  local_ref : PyStr
  local_sha : PyStr
  remote_ref : PyStr
  remote_sha : PyStr
deriving DecidableEq

/-- The per-line body of the loop in `parse_ref_updates` (echo.py 96-102):
`parts = line.strip().split()`; keep the line iff it has exactly 4 fields. -/
def parseLine (line : PyStr) : Option RefUpdate :=
  match pySplit (pyStrip line) with
  | [a, b, c, d] => some ⟨a, b, c, d⟩
  | _ => none

/-- Embeds `parse_ref_updates` (echo.py 96-102): iterate over `raw.splitlines()`,
appending each line that yields exactly 4 whitespace-separated fields. -/
def parse_ref_updates (raw : PyStr) : List RefUpdate :=
  (pySplitLines raw).filterMap parseLine

/-- Body of the loop in `build_refspecs` (echo.py 120-127). -/
def refspec_of_update (u : RefUpdate) : PyStr :=
  if u.local_sha == ZERO_SHA then ':' :: u.remote_ref
  else u.local_ref ++ ':' :: u.remote_ref

/-- Embeds `build_refspecs` (echo.py 120-127): one refspec per update, in order. -/
def build_refspecs (us : List RefUpdate) : List PyStr :=
  us.map refspec_of_update

/-- Spec-side definition for the C1 refinement, following the spec's words
(§4.2/§8): the refspec a single capture line should produce — `":ref"` iff
the local SHA is all-zero, `"local:ref"` otherwise, and `none` (skipped)
unless the line has exactly 4 whitespace-separated fields. -/
def refspecOfLineSpec (line : PyStr) : Option PyStr :=
  match pySplit (pyStrip line) with
  | [local_ref, local_sha, remote_ref, _] =>
    some (if local_sha == ZERO_SHA then ':' :: remote_ref
          else local_ref ++ ':' :: remote_ref)
  | _ => none

theorem parseLine_map_refspec (line : PyStr) :
    (parseLine line).map refspec_of_update = refspecOfLineSpec line := by
  unfold parseLine refspecOfLineSpec
  rcases h : pySplit (pyStrip line) with _ | ⟨a, _ | ⟨b, _ | ⟨c, _ | ⟨d, _ | e⟩⟩⟩⟩ <;>
    simp [refspec_of_update]

/-- C1: for every input text, `parse_ref_updates` followed by `build_refspecs`
yields, in input-line order, one refspec per line with exactly 4
whitespace-separated fields — `":remote_ref"` when the line's local SHA is the
40-zero SHA and `"local_ref:remote_ref"` otherwise — and silently skips every
other line. -/
theorem c1_parse_then_build_refspecs (raw : PyStr) :
    build_refspecs (parse_ref_updates raw) =
      (pySplitLines raw).filterMap refspecOfLineSpec := by
  unfold build_refspecs parse_ref_updates
  induction pySplitLines raw with
  | nil => simp
  | cons a t ih =>
    simp only [List.filterMap_cons]
    have h := parseLine_map_refspec a
    cases hp : parseLine a with
    | none => rw [hp] at h; simp only [Option.map_none'] at h; rw [← h]; simpa using ih
    | some u =>
      rw [hp] at h; simp only [Option.map_some'] at h
      rw [← h]
      simpa using ih

example :
    build_refspecs (parse_ref_updates
      (str "refs/heads/main 0000000000000000000000000000000000000000 refs/heads/main abc123\nbad line\nl s r x")) =
    [str ":refs/heads/main", str "l:r"] := by decide

/-- Embeds `load_ref_updates` (echo.py 104-118).  The filesystem is modelled by the
argument: `none` = no `--refs-file` path was given, `some (Except.error ())` =
`read_text` raises `OSError`, `some (Except.ok raw)` = the file's content.
The returned Bool records whether `refs_file.unlink()` was attempted (the
`finally` block runs in both the success and the error path; its own failure
is swallowed by `except OSError: pass` and is not observable). -/
def load_ref_updates : Option (Except Unit PyStr) → List RefUpdate × Bool
  | none => ([], false)
  | some (Except.error _) => ([], true)
  | some (Except.ok raw) => (parse_ref_updates raw, true)

/-- C5: `load_ref_updates` always attempts to delete the artifact after
reading it, even when the read fails; a read failure yields the empty update
set (the function is total — no exception propagates), and with no artifact
path it returns the empty set without touching the filesystem. -/
theorem c5_load_ref_updates_deletes_artifact :
    (∀ res : Except Unit PyStr, (load_ref_updates (some res)).2 = true) ∧
    (∀ e : Unit, load_ref_updates (some (Except.error e)) = ([], true)) ∧
    load_ref_updates none = ([], false) := by
  refine ⟨fun res => ?_, fun e => rfl, rfl⟩
  cases res <;> rfl

/-- Embeds `ls_remote_sha` (echo.py 129-141).  The `repo.git.ls_remote` call is
modelled by its outcome: `Except.error ()` = the call raised, `Except.ok raw`
= its raw stdout.  (`output.splitlines()[0]` in the source can only be
reached with a non-empty `output`, for which `splitlines` is non-empty; the
model uses `headD` with an empty default for that same access.) -/
def ls_remote_sha (resp : Except Unit PyStr) : Option PyStr :=
  match resp with
  | Except.error _ => none
  | Except.ok raw =>
    let output := pyStrip raw
    if output.isEmpty then none
    else
      let first_line := pySplit ((pySplitLines output).headD [])
      match first_line with
      | [] => none
      | sha :: _ => some sha

/-- One update's resolution test at poll tick `t`, from the loop body of
`origin_updates_confirmed` (echo.py 157-163): a deletion is resolved when the
tip lookup returns nothing, a non-deletion when it returns `local_sha`.
(`ls` maps a poll tick and a ref name to that tick's `ls-remote` outcome.) -/
def resolvedAt (ls : Nat → PyStr → Except Unit PyStr) (t : Nat) (u : RefUpdate) : Bool :=
  let remote_tip := ls_remote_sha (ls t u.remote_ref)
  if u.local_sha == ZERO_SHA then remote_tip.isNone
  else remote_tip == some u.local_sha

/-- The polling loop of `origin_updates_confirmed` (echo.py 155-171).
`rem` is the number of whole seconds left before the deadline (the source's
`while time.time() < deadline` with 1-second sleeps); `t` is the current
tick, used to index the lookup oracle. -/
def confirmLoop (ls : Nat → PyStr → Except Unit PyStr) :
    List RefUpdate → Nat → Nat → Bool
  | _, _, 0 => false
  | pending, t, rem + 1 =>
    let unresolved := pending.filter (fun u => !resolvedAt ls t u)
    if unresolved.isEmpty then true
    else confirmLoop ls unresolved (t + 1) rem

/-- ORIGIN_CONFIRM_TIMEOUT_SECONDS = 12 (echo.py line 22). -/
def ORIGIN_CONFIRM_TIMEOUT_SECONDS : Nat := 12

/-- Embeds `origin_updates_confirmed` (echo.py 143-171). -/
def origin_updates_confirmed (ls : Nat → PyStr → Except Unit PyStr)
    (ref_updates : List RefUpdate) (timeout_seconds : Nat) : Bool :=
  if ref_updates.isEmpty then true
  else confirmLoop ls ref_updates 0 timeout_seconds

theorem confirmLoop_true_iff (ls : Nat → PyStr → Except Unit PyStr) :
    ∀ (rem : Nat) (pending : List RefUpdate) (t : Nat),
      confirmLoop ls pending t rem = true ↔
        (0 < rem ∧ ∀ u ∈ pending, ∃ j, t ≤ j ∧ j < t + rem ∧ resolvedAt ls j u = true) := by
  intro rem
  induction rem with
  | zero => intro pending t; simp [confirmLoop]
  | succ rem ih =>
    intro pending t
    rw [confirmLoop]
    by_cases hemp : (pending.filter (fun u => !resolvedAt ls t u)).isEmpty = true
    · simp only [hemp, if_true, true_iff]
      refine ⟨Nat.succ_pos rem, fun u hu => ⟨t, le_refl t, by omega, ?_⟩⟩
      rw [List.isEmpty_iff] at hemp
      have := List.filter_eq_nil_iff.mp hemp u hu
      simpa using this
    · simp only [hemp, Bool.false_eq_true, if_false]
      rw [ih]
      constructor
      · rintro ⟨hrem, hall⟩
        refine ⟨Nat.succ_pos rem, fun u hu => ?_⟩
        by_cases hres : resolvedAt ls t u = true
        · exact ⟨t, le_refl t, by omega, hres⟩
        · have humem : u ∈ pending.filter (fun u => !resolvedAt ls t u) := by
            rw [List.mem_filter]
            exact ⟨hu, by simpa using hres⟩
          obtain ⟨j, hj1, hj2, hj3⟩ := hall u humem
          exact ⟨j, by omega, by omega, hj3⟩
      · rintro ⟨-, hall⟩
        have hne : pending.filter (fun u => !resolvedAt ls t u) ≠ [] := by
          intro hh; rw [← List.isEmpty_iff] at hh; exact hemp hh
        constructor
        · obtain ⟨u0, hu0⟩ := List.exists_mem_of_ne_nil _ hne
          have hu0p := (List.mem_filter.mp hu0).1
          have hu0r : resolvedAt ls t u0 = false := by
            have := (List.mem_filter.mp hu0).2
            simpa using this
          obtain ⟨j, hj1, hj2, hj3⟩ := hall u0 hu0p
          have : t ≠ j := by intro h; rw [← h] at hj3; rw [hu0r] at hj3; exact Bool.false_ne_true hj3
          omega
        · intro u hu
          have hup := (List.mem_filter.mp hu).1
          have hur : resolvedAt ls t u = false := by
            have := (List.mem_filter.mp hu).2
            simpa using this
          obtain ⟨j, hj1, hj2, hj3⟩ := hall u hup
          have : t ≠ j := by intro h; rw [← h] at hj3; rw [hur] at hj3; exact Bool.false_ne_true hj3
          exact ⟨j, by omega, by omega, hj3⟩

/-- C2 (amended): `origin_updates_confirmed` returns true immediately on an
empty update set; otherwise it returns true iff the timeout is positive and
every update is resolved at some poll tick before the deadline (a deletion is
resolved when the tip lookup yields nothing, a non-deletion when the
advertised tip equals `local_sha`), and false once the deadline elapses with
an update never resolved; a tip-lookup failure is indistinguishable from the
ref being unadvertised, so a non-deletion update with a failing lookup stays
pending, while a deletion update with a failing lookup counts as resolved. -/
theorem c2_origin_confirmation_semantics :
    (∀ (ls : Nat → PyStr → Except Unit PyStr) (timeout : Nat),
        origin_updates_confirmed ls [] timeout = true) ∧
    (∀ (ls : Nat → PyStr → Except Unit PyStr) (updates : List RefUpdate) (timeout : Nat),
        updates ≠ [] →
        (origin_updates_confirmed ls updates timeout = true ↔
          (0 < timeout ∧ ∀ u ∈ updates, ∃ j, j < timeout ∧ resolvedAt ls j u = true))) ∧
    (∀ (ls : Nat → PyStr → Except Unit PyStr) (t : Nat) (u : RefUpdate),
        ls t u.remote_ref = Except.error () →
        resolvedAt ls t u = (u.local_sha == ZERO_SHA)) := by
  refine ⟨fun ls timeout => rfl, fun ls updates timeout hne => ?_, fun ls t u h => ?_⟩
  · have hemp : updates.isEmpty = false := by
      cases updates with
      | nil => exact absurd rfl hne
      | cons a l => rfl
    rw [origin_updates_confirmed, hemp]
    simp only [Bool.false_eq_true, if_false]
    rw [confirmLoop_true_iff]
    constructor
    · rintro ⟨h1, h2⟩
      exact ⟨h1, fun u hu => by
        obtain ⟨j, _, hj2, hj3⟩ := h2 u hu
        exact ⟨j, by omega, hj3⟩⟩
    · rintro ⟨h1, h2⟩
      exact ⟨h1, fun u hu => by
        obtain ⟨j, hj2, hj3⟩ := h2 u hu
        exact ⟨j, by omega, by omega, hj3⟩⟩
  · by_cases hz : (u.local_sha == ZERO_SHA) = true
    · simp [resolvedAt, ls_remote_sha, h, hz]
    · simp only [Bool.not_eq_true] at hz
      simp [resolvedAt, ls_remote_sha, h, hz]

/-- C2 counterexample to the claim as stated: with an `ls-remote` lookup that
always fails and a single deletion update, the claim predicts the update
stays pending until the deadline and the poller returns false; the code
returns true on the very first pass (the failed lookup yields no tip, which a
deletion treats as resolved). -/
theorem c2_counterexample_lookup_failure_confirms_deletion :
    origin_updates_confirmed (fun _ _ => Except.error ())
      [⟨str "refs/heads/x", ZERO_SHA, str "refs/heads/x", str "abcd"⟩]
      ORIGIN_CONFIRM_TIMEOUT_SECONDS = true := by decide

/-- Concrete oracle for the C2 witness: every lookup answers with tip `ab`. -/
def c2WitnessLs : Nat → PyStr → Except Unit PyStr :=
  fun _ _ => Except.ok (str "ab\trefs/heads/m")

/-- Concrete non-deletion update for the C2 witness. -/
def c2WitnessUpdate : RefUpdate :=
  ⟨str "refs/heads/m", str "ab", str "refs/heads/m", str "cd"⟩

theorem c2_origin_confirmation_semantics_witness :
    origin_updates_confirmed (fun _ _ => Except.error ()) [] 5 = true ∧
    origin_updates_confirmed c2WitnessLs [c2WitnessUpdate] 3 = true ∧
    resolvedAt (fun _ _ => Except.error ()) 0 c2WitnessUpdate =
      (c2WitnessUpdate.local_sha == ZERO_SHA) := by
  refine ⟨c2_origin_confirmation_semantics.1 _ 5, ?_,
    c2_origin_confirmation_semantics.2.2 _ 0 c2WitnessUpdate rfl⟩
  refine (c2_origin_confirmation_semantics.2.1 c2WitnessLs [c2WitnessUpdate] 3
    (by decide)).mpr ⟨by decide, ?_⟩
  intro u hu
  have hu' : u = c2WitnessUpdate := by simpa using hu
  subst hu'
  exact ⟨0, by decide, by decide⟩

/-- HOOK_MARKER_START (echo.py line 19). -/
def HOOK_MARKER_START : PyStr := str "# >>> gitecho hook start >>>"

/-- HOOK_MARKER_END (echo.py line 20). -/
def HOOK_MARKER_END : PyStr := str "# <<< gitecho hook end <<<"

/-- Index of the first occurrence of `pat` in `s` (Python `s.index(pat)`;
`none` means `pat not in s`). -/
def indexOfSub (pat : PyStr) : PyStr → Option Nat
  | [] => if pat.isPrefixOf ([] : PyStr) then some 0 else none
  | c :: t =>
    if pat.isPrefixOf (c :: t) then some 0
    else (indexOfSub pat t).map (fun n => n + 1)

/-- Python's `pat in s` substring test. -/
def containsSub (pat s : PyStr) : Bool := (indexOfSub pat s).isSome

/-- The marker-pair phase of `remove_gitecho_hook_block` (echo.py 198-203):
when both markers occur, cut from the first start marker through the first
end marker plus any immediately following newlines.  (As in the source, the
two indices are not compared, so an end marker occurring before the start
marker duplicates the region between them.) -/
def markerPhase (s : PyStr) : PyStr :=
  match indexOfSub HOOK_MARKER_START s, indexOfSub HOOK_MARKER_END s with
  | some i, some j =>
    let e := j + HOOK_MARKER_END.length
    let e2 := e + ((s.drop e).takeWhile (fun c => c == '\n')).length
    s.take i ++ s.drop e2
  | _, _ => s

/-- Drop `pat` as a prefix of `s`, or fail. -/
def dropPfx (pat s : PyStr) : Option PyStr :=
  if pat.isPrefixOf s then some (s.drop pat.length) else none

/-- First fixed chunk of the legacy hook pattern (echo.py 205-212). -/
def LEGACY_HEAD : PyStr :=
  str "# GitEcho hook\nif command -v ge >/dev/null 2>&1; then\n"

/-- The `ge sync` line of the legacy pattern, after the `\s*` run. -/
def LEGACY_GE : PyStr := str "ge sync --bg >> ~/.gitecho.log 2>&1 &\n"

/-- The `fi` line of the legacy pattern. -/
def LEGACY_FI : PyStr := str "fi\n"

/-- The optional `exit 0` line of the legacy pattern. -/
def LEGACY_EXIT : PyStr := str "exit 0\n"

/-- Try to match the legacy regex at the start of `s`; on success return the
remainder of `s` after the match.  The regex is deterministic here: `\s*` is
a maximal whitespace run (shorter runs cannot be followed by the literal
`ge`, which starts with a non-space), and the trailing `(?:exit 0\n)?` is
greedy.  (`re.MULTILINE` only affects `^`/`$`, which the pattern does not
use.) -/
def matchLegacyAt (s : PyStr) : Option PyStr :=
  (dropPfx LEGACY_HEAD s).bind fun r1 =>
    (dropPfx LEGACY_GE (r1.dropWhile isPySpace)).bind fun r2 =>
      (dropPfx LEGACY_FI r2).map fun r3 =>
        match dropPfx LEGACY_EXIT r3 with
        | some r4 => r4
        | none => r3

/-- Fuel-driven worker for `legacySub`; every match is non-empty, so fuel
`s.length` always suffices and the fuel-0 case is unreachable on the initial
call. -/
def legacySubF : Nat → PyStr → PyStr
  | 0, s => s
  | fuel + 1, s =>
    match matchLegacyAt s with
    | some r => legacySubF fuel r
    | none =>
      match s with
      | [] => []
      | c :: t => c :: legacySubF fuel t

/-- Embeds `legacy_pattern.sub("", updated)` (echo.py 205-213): remove every
leftmost, non-overlapping occurrence of the legacy pattern. -/
def legacySub (s : PyStr) : PyStr := legacySubF s.length s

/-- Whether the legacy pattern matches anywhere in `s`. -/
def hasLegacyMatch : PyStr → Bool
  | [] => (matchLegacyAt []).isSome
  | c :: t => (matchLegacyAt (c :: t)).isSome || hasLegacyMatch t

/-- The final newline normalisation of `remove_gitecho_hook_block`
(echo.py 215-216): append one newline when non-empty and not
newline-terminated. -/
def ensureNL (s : PyStr) : PyStr :=
  if s ≠ [] ∧ s.getLast? ≠ some '\n' then s ++ ['\n'] else s

/-- Embeds `remove_gitecho_hook_block` (echo.py 195-217): marker-pair removal, then
legacy-pattern removal, then trailing-newline normalisation. -/
def remove_gitecho_hook_block (content : PyStr) : PyStr :=
  ensureNL (legacySub (markerPhase content))

/-- The `script_content` written by `install_hook` (echo.py 226-241), with
`SKIP_HOOK_ENV`, `REMOTE_PREFIX` and `hook_cmd` interpolated. -/
def script_content : PyStr :=
  str "# >>> gitecho hook start >>>\nif [ \"$\x7bGITECHO_SKIP_HOOK:-0\x7d\" = \"1\" ]; then\n    :\nelif command -v ge >/dev/null 2>&1; then\n    case \"$1\" in\n        \"echo-\"*) ;;\n        *)\n            _ge_refs=\"$(mktemp \"$\x7bTMPDIR:-/tmp\x7d/gitecho-refs.XXXXXX\")\"\n            cat > \"$_ge_refs\"\n            ge sync --bg --origin-remote \"$1\" --refs-file \"$_ge_refs\" >> ~/.gitecho.log 2>&1 &\n            ;;\n    esac\nfi\n# <<< gitecho hook end <<<\n"

/-- The full file content written by `install_hook` (echo.py 219-246) for an
existing hook text: the cleaned existing content plus one newline when
non-empty, followed by the managed block. -/
def install_hook_content (existing : PyStr) : PyStr :=
  let cleaned := rstripNL (remove_gitecho_hook_block existing)
  (if cleaned.isEmpty then [] else cleaned ++ ['\n']) ++ script_content

theorem markerPhase_id (s : PyStr)
    (h : ¬(containsSub HOOK_MARKER_START s = true ∧ containsSub HOOK_MARKER_END s = true)) :
    markerPhase s = s := by
  unfold markerPhase
  cases hi : indexOfSub HOOK_MARKER_START s with
  | none => rfl
  | some i =>
    cases hj : indexOfSub HOOK_MARKER_END s with
    | none => rfl
    | some j =>
      exact absurd ⟨by simp [containsSub, hi], by simp [containsSub, hj]⟩ h

theorem matchLegacyAt_nil : matchLegacyAt [] = none := by decide

theorem legacySubF_id (fuel : Nat) :
    ∀ s : PyStr, hasLegacyMatch s = false → s.length ≤ fuel → legacySubF fuel s = s := by
  induction fuel with
  | zero => intro s _ _; rfl
  | succ fuel ih =>
    intro s hm hl
    cases s with
    | nil => rw [legacySubF, matchLegacyAt_nil]
    | cons c t =>
      rw [hasLegacyMatch, Bool.or_eq_false_iff] at hm
      have hnone : matchLegacyAt (c :: t) = none := by
        cases hmc : matchLegacyAt (c :: t) with
        | none => rfl
        | some r => rw [hmc] at hm; simp at hm
      rw [legacySubF, hnone]
      have := ih t hm.2 (by simpa using Nat.le_of_succ_le_succ hl)
      rw [this]

theorem legacySub_id (s : PyStr) (h : hasLegacyMatch s = false) : legacySub s = s :=
  legacySubF_id s.length s h (le_refl _)

theorem ensureNL_idem (s : PyStr) : ensureNL (ensureNL s) = ensureNL s := by
  unfold ensureNL
  by_cases h : s ≠ [] ∧ s.getLast? ≠ some '\n'
  · rw [if_pos h]
    have : (s ++ ['\n']).getLast? = some '\n' := by simp
    rw [if_neg]
    intro hc
    exact hc.2 this
  · rw [if_neg h, if_neg h]

theorem rstripNL_append_nl (s : PyStr) : rstripNL (s ++ ['\n']) = rstripNL s := by
  unfold rstripNL
  rw [List.reverse_append]
  simp [List.dropWhile]

theorem rstripNL_ensureNL (s : PyStr) : rstripNL (ensureNL s) = rstripNL s := by
  unfold ensureNL
  by_cases h : s ≠ [] ∧ s.getLast? ≠ some '\n'
  · rw [if_pos h, rstripNL_append_nl]
  · rw [if_neg h]

theorem remove_of_no_block (x : PyStr)
    (h1 : ¬(containsSub HOOK_MARKER_START x = true ∧ containsSub HOOK_MARKER_END x = true))
    (h2 : hasLegacyMatch x = false) :
    remove_gitecho_hook_block x = ensureNL x := by
  unfold remove_gitecho_hook_block
  rw [markerPhase_id x h1, legacySub_id x h2]

/-- C4 (amended): `remove_gitecho_hook_block` is idempotent on every input
whose once-processed result contains no marker pair and no legacy-pattern
occurrence — in particular on any text with no managed content, a single
well-formed current block, or a single legacy block.  (It is not idempotent
on arbitrary strings: when the end marker precedes the start marker the
marker phase duplicates the region between them.) -/
theorem c4_remove_block_idempotent_amended (x : PyStr)
    (h1 : ¬(containsSub HOOK_MARKER_START (remove_gitecho_hook_block x) = true ∧
            containsSub HOOK_MARKER_END (remove_gitecho_hook_block x) = true))
    (h2 : hasLegacyMatch (remove_gitecho_hook_block x) = false) :
    remove_gitecho_hook_block (remove_gitecho_hook_block x) = remove_gitecho_hook_block x := by
  rw [remove_of_no_block _ h1 h2]
  exact ensureNL_idem (legacySub (markerPhase x))

/-- Concrete input refuting C4 as stated: the end marker occurs before the
start marker. -/
def c4Cex : PyStr := HOOK_MARKER_END ++ str "A" ++ HOOK_MARKER_START

/-- C4 counterexample: on `c4Cex` the marker phase duplicates the character
between the markers, so applying `remove_gitecho_hook_block` twice differs
from applying it once. -/
theorem c4_counterexample_not_idempotent :
    remove_gitecho_hook_block (remove_gitecho_hook_block c4Cex) ≠
      remove_gitecho_hook_block c4Cex := by decide

/-- Concrete marker-free hook text for the C4 witness. -/
def c4WitnessInput : PyStr := str "#!/bin/sh\necho ok\n"

theorem c4_remove_block_idempotent_amended_witness :
    remove_gitecho_hook_block (remove_gitecho_hook_block c4WitnessInput) =
      remove_gitecho_hook_block c4WitnessInput :=
  c4_remove_block_idempotent_amended c4WitnessInput (by decide) (by decide)

/-- C9 (amended): on input containing neither the marker pair nor the legacy
pattern, `remove_gitecho_hook_block` returns the input unchanged, except that
a newline is appended when the input is non-empty and not already
newline-terminated (existing trailing newlines are kept, not collapsed to
exactly one). -/
theorem c9_remove_block_no_block_behavior (x : PyStr)
    (h1 : ¬(containsSub HOOK_MARKER_START x = true ∧ containsSub HOOK_MARKER_END x = true))
    (h2 : hasLegacyMatch x = false) :
    (x = [] → remove_gitecho_hook_block x = []) ∧
    (x.getLast? = some '\n' → remove_gitecho_hook_block x = x) ∧
    (x ≠ [] → x.getLast? ≠ some '\n' → remove_gitecho_hook_block x = x ++ ['\n']) := by
  rw [remove_of_no_block x h1 h2]
  unfold ensureNL
  refine ⟨fun hx => ?_, fun hx => ?_, fun hx1 hx2 => ?_⟩
  · subst hx; rw [if_neg]; intro hc; exact hc.1 rfl
  · rw [if_neg]; intro hc; exact hc.2 hx
  · rw [if_pos ⟨hx1, hx2⟩]

/-- C9 counterexample: `"a\n\n"` contains neither markers nor the legacy
pattern, is returned unchanged, and its output ends with two newlines, not
exactly one (its last and second-to-last characters are both newlines). -/
theorem c9_counterexample_two_trailing_newlines :
    containsSub HOOK_MARKER_START (str "a\n\n") = false ∧
    hasLegacyMatch (str "a\n\n") = false ∧
    remove_gitecho_hook_block (str "a\n\n") = str "a\n\n" ∧
    (str "a\n\n").getLast? = some '\n' ∧
    (str "a\n\n").dropLast.getLast? = some '\n' := by decide

theorem c9_remove_block_no_block_behavior_witness :
    remove_gitecho_hook_block (str "echo hi") = str "echo hi" ++ ['\n'] :=
  (c9_remove_block_no_block_behavior (str "echo hi") (by decide) (by decide)).2.2
    (by decide) (by decide)

/-- C8 (amended): outside the managed block the hook mutation only normalises
newlines: (1) for an existing hook text with no marker pair and no legacy
occurrence and at least one non-newline character, `install_hook` writes the
existing content with its trailing newlines collapsed to exactly one,
followed by the managed block; (2) removing a well-formed block returns
exactly the bytes before the start marker plus the bytes after the end
marker and its trailing newlines, with nothing but legacy-block removal
(excluded here by hypothesis) and at most one appended final newline ever
touching them. -/
theorem c8_hook_mutation_outside_bytes :
    (∀ existing : PyStr,
        ¬(containsSub HOOK_MARKER_START existing = true ∧
          containsSub HOOK_MARKER_END existing = true) →
        hasLegacyMatch existing = false →
        rstripNL existing ≠ [] →
        install_hook_content existing = rstripNL existing ++ '\n' :: script_content) ∧
    (∀ (x : PyStr) (i j : Nat),
        indexOfSub HOOK_MARKER_START x = some i →
        indexOfSub HOOK_MARKER_END x = some j →
        i ≤ j →
        hasLegacyMatch (markerPhase x) = false →
        remove_gitecho_hook_block x =
          ensureNL (x.take i ++ x.drop (j + HOOK_MARKER_END.length +
            ((x.drop (j + HOOK_MARKER_END.length)).takeWhile
              (fun c => c == '\n')).length))) := by
  constructor
  · intro existing h1 h2 h3
    simp only [install_hook_content]
    rw [remove_of_no_block existing h1 h2, rstripNL_ensureNL]
    have hne : (rstripNL existing).isEmpty = false := by
      cases hh : rstripNL existing with
      | nil => exact absurd hh h3
      | cons a l => rfl
    rw [hne]
    simp
  · intro x i j hi hj hij h4
    unfold remove_gitecho_hook_block
    have hm : markerPhase x = x.take i ++ x.drop (j + HOOK_MARKER_END.length +
        ((x.drop (j + HOOK_MARKER_END.length)).takeWhile (fun c => c == '\n')).length) := by
      unfold markerPhase
      rw [hi, hj]
    rw [hm]
    rw [legacySub_id _ (by rw [← hm]; exact h4)]

/-- Concrete input refuting C8 as stated: existing hook content with two
trailing newlines. -/
def c8Cex : PyStr := str "#!/bin/sh\necho x\n\n"

/-- C8 counterexample: `install_hook` does not keep the original content's
trailing newlines — on `c8Cex` the written file is not the original content
followed by the managed block (one of the two trailing newlines is
dropped). -/
theorem c8_counterexample_trailing_newlines_altered :
    install_hook_content c8Cex ≠ c8Cex ++ script_content := by decide

/-- Concrete existing hook text for the C8 witness, part 1. -/
def c8WitnessPlain : PyStr := str "#!/bin/sh\necho x\n"

/-- Concrete hook text with one well-formed managed block for the C8
witness, part 2 (start marker at index 4, end marker at index 38). -/
def c8WitnessMarked : PyStr :=
  str "pre\n" ++ HOOK_MARKER_START ++ str "\nbody\n" ++ HOOK_MARKER_END ++ str "\npost\n"

theorem c8_hook_mutation_outside_bytes_witness :
    install_hook_content c8WitnessPlain =
      rstripNL c8WitnessPlain ++ '\n' :: script_content ∧
    remove_gitecho_hook_block c8WitnessMarked =
      ensureNL (c8WitnessMarked.take 4 ++ c8WitnessMarked.drop
        (38 + HOOK_MARKER_END.length +
          ((c8WitnessMarked.drop (38 + HOOK_MARKER_END.length)).takeWhile
            (fun c => c == '\n')).length)) :=
  ⟨c8_hook_mutation_outside_bytes.1 c8WitnessPlain (by decide) (by decide) (by decide),
   c8_hook_mutation_outside_bytes.2 c8WitnessMarked 4 38 (by decide) (by decide)
     (by decide) (by decide)⟩

/-- REMOTE_PREFIX = "echo-" (echo.py line 18). -/
def REMOTE_PFX : PyStr := str "echo-"

/-- Embeds `is_mirror_remote` (echo.py 42-43). -/
def is_mirror_remote (name : PyStr) : Bool := REMOTE_PFX.isPrefixOf name

/-- Characters kept verbatim by `_slug`'s pattern `[^a-z0-9]+`. -/
def isSlugChar (c : Char) : Bool :=
  ('a' ≤ c && c ≤ 'z') || ('0' ≤ c && c ≤ '9')

/-- Embeds `re.sub(r"[^a-z0-9]+", "-", value)`: each maximal run of non-slug
characters becomes a single dash. -/
def collapseNonSlug (s : PyStr) : PyStr :=
  s.foldr
    (fun c acc =>
      if isSlugChar c then c :: acc
      else
        match acc with
        | [] => ['-']
        | d :: _ => if d == '-' then acc else '-' :: acc)
    []

/-- Python `str.strip("-")`. -/
def stripDash (s : PyStr) : PyStr :=
  (((s.dropWhile (fun c => c == '-')).reverse.dropWhile (fun c => c == '-'))).reverse

/-- Embeds `_slug` (echo.py 49-51). -/
def _slug (value fallback : PyStr) : PyStr :=
  let s := stripDash (collapseNonSlug (pyLower value))
  if s.isEmpty then fallback else s

/-- ASCII letter test (start of a URL scheme). -/
def isAlphaChar (c : Char) : Bool :=
  ('a' ≤ c && c ≤ 'z') || ('A' ≤ c && c ≤ 'Z')

/-- Characters allowed in a URL scheme by `urllib.parse`. -/
def isSchemeChar (c : Char) : Bool :=
  isAlphaChar c || ('0' ≤ c && c ≤ '9') || c == '+' || c == '-' || c == '.'

/-- The part of a netloc after its last `@` (userinfo stripped). -/
def afterLastAt (l : PyStr) : PyStr :=
  (l.reverse.takeWhile (fun c => c != '@')).reverse

/-- The `urlparse(url)` fragment used by `_remote_parts` (echo.py 56-60):
`some (hostname, path)` when the URL has a valid scheme followed by `//` and
a non-empty hostname (lowercased, userinfo and port stripped), else `none`
(which in the source shows up as `parsed.scheme and parsed.hostname` being
falsy).  IPv6 bracket syntax is not modelled. -/
def urlparseHostPath (url : PyStr) : Option (PyStr × PyStr) :=
  let scheme := url.takeWhile (fun c => c != ':')
  match url.drop scheme.length with
  | [] => none
  | _ :: r =>
    match scheme with
    | [] => none
    | c0 :: _ =>
      if isAlphaChar c0 && scheme.all isSchemeChar then
        match r with
        | c1 :: c2 :: r2 =>
          if c1 == '/' && c2 == '/' then
            let netloc := r2.takeWhile (fun c => c != '/' && c != '?' && c != '#')
            let path := (r2.drop netloc.length).takeWhile (fun c => c != '?' && c != '#')
            let host := (afterLastAt netloc).takeWhile (fun c => c != ':')
            if host.isEmpty then none else some (pyLower host, path)
          else none
        | _ => none
      else none

/-- Match `([^:/]+):(.+)$` against all of `s` (the tail of the scp-style
regex of `_remote_parts`, echo.py 62): a non-empty run without `:` or `/`,
then `:`, then a non-empty remainder; `.` cannot match a newline, and `$`
also matches just before a single trailing newline. -/
def hostPathSplit (s : PyStr) : Option (PyStr × PyStr) :=
  let host := s.takeWhile (fun c => c != ':' && c != '/')
  if host.isEmpty then none
  else
    match s.drop host.length with
    | [] => none
    | c :: p =>
      if c == ':' then
        let p2 := if p.getLast? == some '\n' then p.dropLast else p
        if !p2.isEmpty && p2.all (fun d => d != '\n') then some (host, p2) else none
      else none

/-- Embeds `re.match(r"^(?:.+@)?([^:/]+):(.+)$", url)` (echo.py 62): the optional
`.+@` group is greedy, so `@` split positions are tried from the last to the
first (the prefix must be non-empty and newline-free), then the empty
group. -/
def scpMatch (url : PyStr) : Option (PyStr × PyStr) :=
  let ats := ((List.range url.length).filter (fun i =>
      decide (1 ≤ i) && (url.getD i ' ' == '@') &&
        (url.take i).all (fun c => c != '\n'))).reverse
  match ats.findSome? (fun i => hostPathSplit (url.drop (i + 1))) with
  | some hp => some hp
  | none => hostPathSplit url

/-- Python `str.rstrip("/")`. -/
def rstripSlash (s : PyStr) : PyStr :=
  (s.reverse.dropWhile (fun c => c == '/')).reverse

/-- Embeds `_remote_parts` (echo.py 53-72). -/
def _remote_parts (url : PyStr) : PyStr × PyStr :=
  let hp :=
    match urlparseHostPath url with
    | some x => x
    | none =>
      match scpMatch url with
      | some x => x
      | none => (str "remote", url)
  let path := hp.2
  let repo_name :=
    if path.isEmpty then str "repo"
    else (List.splitOn '/' (rstripSlash path)).getLastD []
  let repo_name2 :=
    if (str ".git").isSuffixOf repo_name then repo_name.take (repo_name.length - 4)
    else repo_name
  (_slug hp.1 (str "remote"), _slug repo_name2 (str "repo"))

/-- A configured remote: (name, url). -/
structure Remote where
  name : PyStr
  url : PyStr
deriving DecidableEq

/-- The `while True` counter loop of `resolve_remote_name` (echo.py 89-94),
with explicit fuel.  Fuel `existing.length + 1` always suffices (the
candidates are pairwise distinct, so one of the first `existing.length + 1`
is absent from `existing`), making the fuel-0 fallback unreachable from
`resolve_remote_name`. -/
def counterSearch (existing : List PyStr) (base : PyStr) : Nat → Nat → PyStr
  | c, 0 => base ++ '-' :: (Nat.repr c).toList
  | c, fuel + 1 =>
    let cand := base ++ '-' :: (Nat.repr c).toList
    if existing.contains cand then counterSearch existing base (c + 1) fuel else cand

/-- Embeds `resolve_remote_name` (echo.py 74-94). -/
def resolve_remote_name (remotes : List Remote) (url : PyStr) : PyStr × Bool :=
  match remotes.find? (fun r => r.url == url) with
  | some r => (r.name, true)
  | none =>
    let parts := _remote_parts url
    let existing := remotes.map Remote.name
    let domain_name := REMOTE_PFX ++ parts.1
    if !existing.contains domain_name then (domain_name, false)
    else
      let repo_name := domain_name ++ '-' :: parts.2
      if !existing.contains repo_name then (repo_name, false)
      else (counterSearch existing repo_name 2 (existing.length + 1), false)

example : _remote_parts (str "git@host.example:org/repo.git") =
    (str "host-example", str "repo") := by decide

example : _remote_parts (str "https://github.com/org/repo.git") =
    (str "github-com", str "repo") := by decide

theorem counterSearch_eq (existing : List PyStr) (base : PyStr) :
    ∀ (fuel c cStar : Nat), c ≤ cStar → cStar - c < fuel →
      existing.contains (base ++ '-' :: (Nat.repr cStar).toList) = false →
      (∀ k, c ≤ k → k < cStar →
        existing.contains (base ++ '-' :: (Nat.repr k).toList) = true) →
      counterSearch existing base c fuel = base ++ '-' :: (Nat.repr cStar).toList := by
  intro fuel
  induction fuel with
  | zero => intro c cStar h1 h2 _ _; omega
  | succ fuel ih =>
    intro c cStar h1 h2 h3 h4
    rw [counterSearch]
    by_cases hc : c = cStar
    · subst hc
      simp only [h3, Bool.false_eq_true, if_false]
    · have hlt : c < cStar := by omega
      have hcontains := h4 c (le_refl c) hlt
      simp only [hcontains, if_true]
      exact ih (c + 1) cStar (by omega) (by omega) h3
        (fun k hk1 hk2 => h4 k (by omega) hk2)

/-- C6: `resolve_remote_name` returns the first URL-matching remote's name
with `alreadyLinked = true` and creates nothing; otherwise it returns, with
`alreadyLinked = false`, the first candidate not among the existing remote
names, trying `echo-<hostSlug>`, then `echo-<hostSlug>-<repoSlug>`, then
`echo-<hostSlug>-<repoSlug>-N` for the least `N ≥ 2` (which by pigeonhole
lies below `remotes.length + 3`); with no existing remotes,
`git@host.example:org/repo.git` resolves to `("echo-host-example", false)`. -/
theorem c6_resolve_remote_name :
    (∀ (remotes : List Remote) (url : PyStr) (r : Remote),
        remotes.find? (fun x => x.url == url) = some r →
        resolve_remote_name remotes url = (r.name, true)) ∧
    (∀ (remotes : List Remote) (url : PyStr),
        remotes.find? (fun x => x.url == url) = none →
        (remotes.map Remote.name).contains (REMOTE_PFX ++ (_remote_parts url).1) = false →
        resolve_remote_name remotes url = (REMOTE_PFX ++ (_remote_parts url).1, false)) ∧
    (∀ (remotes : List Remote) (url : PyStr),
        remotes.find? (fun x => x.url == url) = none →
        (remotes.map Remote.name).contains (REMOTE_PFX ++ (_remote_parts url).1) = true →
        (remotes.map Remote.name).contains
          ((REMOTE_PFX ++ (_remote_parts url).1) ++ '-' :: (_remote_parts url).2) = false →
        resolve_remote_name remotes url =
          ((REMOTE_PFX ++ (_remote_parts url).1) ++ '-' :: (_remote_parts url).2, false)) ∧
    (∀ (remotes : List Remote) (url : PyStr) (cStar : Nat),
        remotes.find? (fun x => x.url == url) = none →
        (remotes.map Remote.name).contains (REMOTE_PFX ++ (_remote_parts url).1) = true →
        (remotes.map Remote.name).contains
          ((REMOTE_PFX ++ (_remote_parts url).1) ++ '-' :: (_remote_parts url).2) = true →
        2 ≤ cStar → cStar < remotes.length + 3 →
        (remotes.map Remote.name).contains
          (((REMOTE_PFX ++ (_remote_parts url).1) ++ '-' :: (_remote_parts url).2) ++
            '-' :: (Nat.repr cStar).toList) = false →
        (∀ k, 2 ≤ k → k < cStar →
          (remotes.map Remote.name).contains
            (((REMOTE_PFX ++ (_remote_parts url).1) ++ '-' :: (_remote_parts url).2) ++
              '-' :: (Nat.repr k).toList) = true) →
        resolve_remote_name remotes url =
          ((((REMOTE_PFX ++ (_remote_parts url).1) ++ '-' :: (_remote_parts url).2) ++
            '-' :: (Nat.repr cStar).toList), false)) ∧
    resolve_remote_name [] (str "git@host.example:org/repo.git") =
      (str "echo-host-example", false) := by
  refine ⟨?_, ?_, ?_, ?_, by decide⟩
  · intro remotes url r h
    simp [resolve_remote_name, h]
  · intro remotes url hfind hdom
    simp only [resolve_remote_name, hfind]
    rw [hdom]
    simp
  · intro remotes url hfind hdom hrepo
    simp only [resolve_remote_name, hfind]
    rw [hdom, hrepo]
    simp
  · intro remotes url cStar hfind hdom hrepo hc2 hcb hcand hall
    simp only [resolve_remote_name, hfind]
    rw [hdom, hrepo]
    simp only [Bool.not_true, Bool.false_eq_true, if_false]
    have hsearch := counterSearch_eq (remotes.map Remote.name)
        ((REMOTE_PFX ++ (_remote_parts url).1) ++ '-' :: (_remote_parts url).2)
        ((remotes.map Remote.name).length + 1) 2 cStar hc2
        (by rw [List.length_map]; omega) hcand hall
    rw [hsearch]

/-- Existing remotes for the C6 witness, counter branch: the domain slug,
the repo slug, and the `-2` candidate are all taken. -/
def c6WitnessRemotes : List Remote :=
  [⟨str "echo-remote", str "u1"⟩, ⟨str "echo-remote-x", str "u2"⟩,
   ⟨str "echo-remote-x-2", str "u3"⟩]

theorem c6_resolve_remote_name_witness :
    resolve_remote_name [⟨str "origin", str "u"⟩] (str "u") = (str "origin", true) ∧
    resolve_remote_name [] (str "x") = (str "echo-remote", false) ∧
    resolve_remote_name [⟨str "echo-remote", str "u1"⟩] (str "x") =
      (str "echo-remote-x", false) ∧
    resolve_remote_name c6WitnessRemotes (str "x") = (str "echo-remote-x-3", false) ∧
    resolve_remote_name [] (str "git@host.example:org/repo.git") =
      (str "echo-host-example", false) := by
  refine ⟨c6_resolve_remote_name.1 [⟨str "origin", str "u"⟩] (str "u")
      ⟨str "origin", str "u"⟩ (by decide), ?_, ?_, ?_, c6_resolve_remote_name.2.2.2.2⟩
  · exact (c6_resolve_remote_name.2.1 [] (str "x") (by decide) (by decide)).trans
      (by decide)
  · exact (c6_resolve_remote_name.2.2.1 [⟨str "echo-remote", str "u1"⟩] (str "x")
      (by decide) (by decide) (by decide)).trans (by decide)
  · refine (c6_resolve_remote_name.2.2.2.1 c6WitnessRemotes (str "x") 3
      (by decide) (by decide) (by decide) (by decide) (by decide) (by decide)
      ?_).trans (by decide)
    intro k hk1 hk2
    have hk : k = 2 := by omega
    subst hk
    decide

/-- Embeds `should_continue_on_origin_reject` (echo.py 45-47): `os.getenv(..., "")`
is modelled by `Option.getD`; the value is stripped, lowercased and compared
against the accepted set. -/
def should_continue_on_origin_reject (v : Option PyStr) : Bool :=
  let value := pyLower (pyStrip (v.getD []))
  value == str "1" || value == str "true" || value == str "yes" || value == str "on"

/-- The three modes of `push_with_fail_fast_auth` (echo.py 173-193):
all branches + tags, an explicit refspec list, or the plain default push. -/
inductive PushMode where
  | allRefs : PushMode
  | specs : List PyStr → PushMode
  | plain : PushMode
deriving DecidableEq

/-- One observable action of a `sync` session: a log line (level, message),
a console print, an `origin_updates_confirmed` call (with its result), or a
push attempt against a mirror. -/
inductive Event where
  | logE : PyStr → PyStr → Event
  | console : PyStr → Event
  | confirmCall : PyStr → Bool → Event
  | pushAttempt : PyStr → PushMode → Event
deriving DecidableEq

/-- The environment a `sync` invocation runs in: the repository's working
directory and remote names, the capture-artifact state, the override
environment variable's value, the `ls-remote` oracle, and the push transport
oracle (`none` = push succeeds, `some msg` = push raises with message
`msg`). -/
structure GitEnv where
  workingDir : PyStr
  remotes : List PyStr
  refsFile : Option (Except Unit PyStr)
  continueEnv : Option PyStr
  lsRemote : Nat → PyStr → Except Unit PyStr
  pushResult : PyStr → PushMode → Option PyStr

/-- The `except` branch of the mirror loop (echo.py 337-342). -/
def syncFailEvent (bg : Bool) (name e : PyStr) : Event :=
  let msg := str "Failed to sync " ++ name ++ str ": " ++ e
  let msg2 :=
    if bg then
      msg ++ str " (Ensure SSH keys or git credential helper is configured for non-interactive auth.)"
    else msg
  if bg then Event.logE (str "ERROR") msg2
  else Event.console (str "[red]" ++ msg2 ++ str "[/red]")

/-- One iteration of the mirror loop of `sync` (echo.py 316-342): a push is
attempted in the mode selected by `--all` / non-empty refspecs / default, and
its outcome is reported to the console (foreground) or the log (background).
The transient `console.status` spinner is not an observable event. -/
def syncMirrorEvents (env : GitEnv) (bg all : Bool) (refspecs : List PyStr)
    (name : PyStr) : List Event :=
  if all then
    Event.pushAttempt name PushMode.allRefs ::
      (match env.pushResult name PushMode.allRefs with
       | none =>
         [if bg then Event.logE (str "INFO") (str "Synced " ++ name ++ str " successfully (--all)")
          else Event.console (str "[green]✔ Synced " ++ name ++ str "[/green]")]
       | some e => [syncFailEvent bg name e])
  else if !refspecs.isEmpty then
    Event.pushAttempt name (PushMode.specs refspecs) ::
      (match env.pushResult name (PushMode.specs refspecs) with
       | none =>
         [if bg then
            Event.logE (str "INFO") (str "Synced " ++ name ++ str " successfully (" ++
              (Nat.repr refspecs.length).toList ++ str " ref updates)")
          else Event.console (str "[green]✔ Synced " ++ name ++ str "[/green]")]
       | some e => [syncFailEvent bg name e])
  else
    Event.pushAttempt name PushMode.plain ::
      (match env.pushResult name PushMode.plain with
       | none =>
         [if bg then Event.logE (str "INFO") (str "Synced " ++ name ++ str " successfully")
          else Event.console (str "[green]✔ Synced " ++ name ++ str "[/green]")]
       | some e => [syncFailEvent bg name e])

/-- The `sync` command (echo.py 270-342) as its ordered list of observable
events. -/
def sync (env : GitEnv) (bg all : Bool) (origin_remote : PyStr) : List Event :=
  let mirrors := env.remotes.filter is_mirror_remote
  let ref_updates := (load_ref_updates env.refsFile).1
  let refspecs := build_refspecs ref_updates
  if mirrors.isEmpty then
    if bg then [] else [Event.console (str "[yellow]No mirrors found.[/yellow]")]
  else
    let pushEvents := mirrors.flatMap (syncMirrorEvents env bg all refspecs)
    if bg then
      let continue_on_reject := should_continue_on_origin_reject env.continueEnv
      let started :=
        [Event.logE (str "INFO") (str "Background sync started for " ++ env.workingDir)]
      if is_mirror_remote origin_remote then
        started ++ [Event.logE (str "INFO")
          (str "Skipped sync for mirror-triggered push on " ++ origin_remote ++ str ".")]
      else if !ref_updates.isEmpty then
        let confirmed := origin_updates_confirmed env.lsRemote ref_updates
          ORIGIN_CONFIRM_TIMEOUT_SECONDS
        let withCall := started ++ [Event.confirmCall origin_remote confirmed]
        if !confirmed then
          if continue_on_reject then
            withCall ++ [Event.logE (str "WARN")
              (str "Origin refs not confirmed in time, but continuing because GITECHO_CONTINUE_ON_ORIGIN_REJECT=1.")] ++
              pushEvents
          else
            withCall ++ [Event.logE (str "WARN")
              (str "Skipped mirror sync: origin refs were not confirmed in time (push likely rejected). Set GITECHO_CONTINUE_ON_ORIGIN_REJECT=1 to continue anyway.")]
        else
          withCall ++ [Event.logE (str "INFO")
            (str "Origin refs confirmed on " ++ origin_remote ++ str ".")] ++ pushEvents
      else if env.refsFile.isSome && !all then
        started ++ [Event.logE (str "WARN")
          (str "No ref updates were captured; falling back to default push behavior.")] ++
          pushEvents
      else
        started ++ pushEvents
    else
      pushEvents

/-- Whether an event is an `origin_updates_confirmed` invocation. -/
def Event.isConfirm : Event → Bool
  | Event.confirmCall _ _ => true
  | _ => false

/-- The names of the mirrors a trace attempted to push, in order. -/
def attemptNames (es : List Event) : List PyStr :=
  es.filterMap (fun e =>
    match e with
    | Event.pushAttempt n _ => some n
    | _ => none)

/-- The WARN-level log events of a trace. -/
def warnEvents (es : List Event) : List Event :=
  es.filter (fun e =>
    match e with
    | Event.logE lv _ => lv == str "WARN"
    | _ => false)

/-- A per-mirror outcome report: a non-WARN log line or a console print. -/
def isOutcomeReport : Event → Bool
  | Event.logE lv _ => !(lv == str "WARN")
  | Event.console _ => true
  | _ => false

theorem syncMirrorEvents_shape (env : GitEnv) (bg all : Bool)
    (refspecs : List PyStr) (name : PyStr) :
    ∃ m ev, syncMirrorEvents env bg all refspecs name = [Event.pushAttempt name m, ev] ∧
      isOutcomeReport ev = true := by
  unfold syncMirrorEvents
  by_cases hall : all = true
  · subst hall
    cases hpr : env.pushResult name PushMode.allRefs <;> cases bg <;>
      exact ⟨_, _, rfl, rfl⟩
  · have hall' : all = false := by simpa using hall
    subst hall'
    by_cases hr : refspecs.isEmpty = true
    · rw [hr]
      cases hpr : env.pushResult name PushMode.plain <;> cases bg <;>
        exact ⟨_, _, rfl, rfl⟩
    · have hr' : refspecs.isEmpty = false := by simpa using hr
      rw [hr']
      cases hpr : env.pushResult name (PushMode.specs refspecs) <;> cases bg <;>
        exact ⟨_, _, rfl, rfl⟩

theorem attemptNames_append (xs ys : List Event) :
    attemptNames (xs ++ ys) = attemptNames xs ++ attemptNames ys := by
  simp [attemptNames]

theorem attemptNames_syncMirror (env : GitEnv) (bg all : Bool)
    (refspecs : List PyStr) (name : PyStr) :
    attemptNames (syncMirrorEvents env bg all refspecs name) = [name] := by
  obtain ⟨m, ev, heq, hrep⟩ := syncMirrorEvents_shape env bg all refspecs name
  rw [heq]
  cases ev <;> simp_all [attemptNames, isOutcomeReport]

theorem attemptNames_flatMap (env : GitEnv) (bg all : Bool)
    (refspecs : List PyStr) (l : List PyStr) :
    attemptNames (l.flatMap (syncMirrorEvents env bg all refspecs)) = l := by
  induction l with
  | nil => rfl
  | cons a t ih =>
    rw [List.flatMap_cons, attemptNames_append, attemptNames_syncMirror, ih]
    rfl

theorem warnEvents_append (xs ys : List Event) :
    warnEvents (xs ++ ys) = warnEvents xs ++ warnEvents ys := by
  simp [warnEvents]

theorem warnEvents_syncMirror (env : GitEnv) (bg all : Bool)
    (refspecs : List PyStr) (name : PyStr) :
    warnEvents (syncMirrorEvents env bg all refspecs name) = [] := by
  obtain ⟨m, ev, heq, hrep⟩ := syncMirrorEvents_shape env bg all refspecs name
  rw [heq]
  cases ev <;> simp_all [warnEvents, isOutcomeReport]

theorem warnEvents_flatMap (env : GitEnv) (bg all : Bool)
    (refspecs : List PyStr) (l : List PyStr) :
    warnEvents (l.flatMap (syncMirrorEvents env bg all refspecs)) = [] := by
  induction l with
  | nil => rfl
  | cons a t ih =>
    rw [List.flatMap_cons, warnEvents_append, warnEvents_syncMirror, ih]
    rfl

theorem confirmFilter_syncMirror (env : GitEnv) (bg all : Bool)
    (refspecs : List PyStr) (name : PyStr) :
    (syncMirrorEvents env bg all refspecs name).filter Event.isConfirm = [] := by
  obtain ⟨m, ev, heq, hrep⟩ := syncMirrorEvents_shape env bg all refspecs name
  rw [heq]
  cases ev <;> simp_all [Event.isConfirm, isOutcomeReport]

theorem confirmFilter_flatMap (env : GitEnv) (bg all : Bool)
    (refspecs : List PyStr) (l : List PyStr) :
    (l.flatMap (syncMirrorEvents env bg all refspecs)).filter Event.isConfirm = [] := by
  induction l with
  | nil => rfl
  | cons a t ih =>
    rw [List.flatMap_cons, List.filter_append, confirmFilter_syncMirror, ih]
    rfl

/-- Whether a `sync` invocation reaches the mirror push loop (echo.py
283-314): it does unless there are no mirrors, the origin is itself a
mirror, or a failed confirmation is not overridden.  This reads every field
of the environment except the push oracle. -/
def syncPushGate (env : GitEnv) (bg : Bool) (origin_remote : PyStr) : Bool :=
  let mirrors := env.remotes.filter is_mirror_remote
  let ref_updates := (load_ref_updates env.refsFile).1
  if mirrors.isEmpty then false
  else if bg then
    if is_mirror_remote origin_remote then false
    else if !ref_updates.isEmpty then
      let confirmed := origin_updates_confirmed env.lsRemote ref_updates
        ORIGIN_CONFIRM_TIMEOUT_SECONDS
      if !confirmed then should_continue_on_origin_reject env.continueEnv
      else true
    else true
  else true

theorem sync_events_split (env : GitEnv) (bg all : Bool) (origin : PyStr) :
    ∃ pre : List Event,
      sync env bg all origin =
        pre ++ (if syncPushGate env bg origin then
          (env.remotes.filter is_mirror_remote).flatMap
            (syncMirrorEvents env bg all (build_refspecs (load_ref_updates env.refsFile).1))
        else []) ∧
      attemptNames pre = [] ∧
      ((bg = false ∨ (load_ref_updates env.refsFile).1 = []) →
        pre.filter Event.isConfirm = []) := by
  unfold sync syncPushGate
  by_cases h1 : (env.remotes.filter is_mirror_remote).isEmpty = true
  · cases bg
    · exact ⟨[Event.console (str "[yellow]No mirrors found.[/yellow]")],
        by simp [h1], by simp [attemptNames], by simp [Event.isConfirm]⟩
    · exact ⟨[], by simp [h1], rfl, by simp⟩
  · cases bg
    · exact ⟨[], by simp [h1], rfl, by simp⟩
    · by_cases h2 : is_mirror_remote origin = true
      · exact ⟨[Event.logE (str "INFO") (str "Background sync started for " ++ env.workingDir),
          Event.logE (str "INFO")
            (str "Skipped sync for mirror-triggered push on " ++ origin ++ str ".")],
          by simp [h1, h2], by simp [attemptNames], by simp [Event.isConfirm]⟩
      · have h2' : is_mirror_remote origin = false := by simpa using h2
        by_cases h3 : ((load_ref_updates env.refsFile).1).isEmpty = true
        · have h3' : (load_ref_updates env.refsFile).1 = [] := by
            rwa [List.isEmpty_iff] at h3
          by_cases h6 : (env.refsFile.isSome && !all) = true
          · exact ⟨[Event.logE (str "INFO")
                (str "Background sync started for " ++ env.workingDir),
              Event.logE (str "WARN")
                (str "No ref updates were captured; falling back to default push behavior.")],
              by simp [h1, h2', h3, h6], by simp [attemptNames], by simp [Event.isConfirm]⟩
          · exact ⟨[Event.logE (str "INFO")
                (str "Background sync started for " ++ env.workingDir)],
              by simp [h1, h2', h3, h6], by simp [attemptNames], by simp [Event.isConfirm]⟩
        · by_cases h4 : origin_updates_confirmed env.lsRemote
              (load_ref_updates env.refsFile).1 ORIGIN_CONFIRM_TIMEOUT_SECONDS = true
          · exact ⟨[Event.logE (str "INFO")
                (str "Background sync started for " ++ env.workingDir),
              Event.confirmCall origin true,
              Event.logE (str "INFO") (str "Origin refs confirmed on " ++ origin ++ str ".")],
              by simp [h1, h2', h3, h4], by simp [attemptNames],
              by
                rintro (h | h)
                · simp at h
                · rw [← List.isEmpty_iff] at h; exact absurd h h3⟩
          · have h4' : origin_updates_confirmed env.lsRemote
                (load_ref_updates env.refsFile).1 ORIGIN_CONFIRM_TIMEOUT_SECONDS = false := by
              simpa using h4
            by_cases h5 : should_continue_on_origin_reject env.continueEnv = true
            · exact ⟨[Event.logE (str "INFO")
                  (str "Background sync started for " ++ env.workingDir),
                Event.confirmCall origin false,
                Event.logE (str "WARN")
                  (str "Origin refs not confirmed in time, but continuing because GITECHO_CONTINUE_ON_ORIGIN_REJECT=1.")],
                by simp [h1, h2', h3, h4', h5], by simp [attemptNames],
                by
                  rintro (h | h)
                  · simp at h
                  · rw [← List.isEmpty_iff] at h; exact absurd h h3⟩
            · have h5' : should_continue_on_origin_reject env.continueEnv = false := by
                simpa using h5
              exact ⟨[Event.logE (str "INFO")
                  (str "Background sync started for " ++ env.workingDir),
                Event.confirmCall origin false,
                Event.logE (str "WARN")
                  (str "Skipped mirror sync: origin refs were not confirmed in time (push likely rejected). Set GITECHO_CONTINUE_ON_ORIGIN_REJECT=1 to continue anyway.")],
                by simp [h1, h2', h3, h4', h5'], by simp [attemptNames],
                by
                  rintro (h | h)
                  · simp at h
                  · rw [← List.isEmpty_iff] at h; exact absurd h h3⟩

/-- C3: in a background session whose mirrors and captured updates are
non-empty and whose origin is not itself a mirror, a failed origin
confirmation means no mirror push is attempted and a warning is logged,
unless the override environment variable is set so that
`should_continue_on_origin_reject` holds — in which case a warning is logged
and every mirror is still pushed; the override accepts exactly the values
whose stripped, lowercased form is `1`, `true`, `yes` or `on`. -/
theorem c3_confirmation_timeout_policy (env : GitEnv) (origin : PyStr) (all : Bool)
    (hm : env.remotes.filter is_mirror_remote ≠ [])
    (ho : is_mirror_remote origin = false)
    (hu : (load_ref_updates env.refsFile).1 ≠ [])
    (hc : origin_updates_confirmed env.lsRemote (load_ref_updates env.refsFile).1
      ORIGIN_CONFIRM_TIMEOUT_SECONDS = false) :
    (should_continue_on_origin_reject env.continueEnv = false →
      attemptNames (sync env true all origin) = [] ∧
      warnEvents (sync env true all origin) ≠ []) ∧
    (should_continue_on_origin_reject env.continueEnv = true →
      attemptNames (sync env true all origin) = env.remotes.filter is_mirror_remote ∧
      warnEvents (sync env true all origin) ≠ []) ∧
    (∀ v : PyStr, should_continue_on_origin_reject (some v) = true ↔
      (pyLower (pyStrip v) = str "1" ∨ pyLower (pyStrip v) = str "true" ∨
       pyLower (pyStrip v) = str "yes" ∨ pyLower (pyStrip v) = str "on")) := by
  have hm' : (env.remotes.filter is_mirror_remote).isEmpty = false := by
    cases h : env.remotes.filter is_mirror_remote with
    | nil => exact absurd h hm
    | cons a t => rfl
  have hu' : ((load_ref_updates env.refsFile).1).isEmpty = false := by
    cases h : (load_ref_updates env.refsFile).1 with
    | nil => exact absurd h hu
    | cons a t => rfl
  have hIW : (str "INFO" == str "WARN") = false := by decide
  have hWW : (str "WARN" == str "WARN") = true := by decide
  refine ⟨fun hcont => ?_, fun hcont => ?_, fun v => ?_⟩
  · have hsync : sync env true all origin =
        [Event.logE (str "INFO") (str "Background sync started for " ++ env.workingDir),
         Event.confirmCall origin false,
         Event.logE (str "WARN")
           (str "Skipped mirror sync: origin refs were not confirmed in time (push likely rejected). Set GITECHO_CONTINUE_ON_ORIGIN_REJECT=1 to continue anyway.")] := by
      simp only [sync]
      rw [hm', ho, hu', hc, hcont]
      simp
    rw [hsync]
    exact ⟨by simp [attemptNames], by simp [warnEvents, hIW, hWW]⟩
  · have hsync : sync env true all origin =
        [Event.logE (str "INFO") (str "Background sync started for " ++ env.workingDir),
         Event.confirmCall origin false,
         Event.logE (str "WARN")
           (str "Origin refs not confirmed in time, but continuing because GITECHO_CONTINUE_ON_ORIGIN_REJECT=1.")] ++
        (env.remotes.filter is_mirror_remote).flatMap
          (syncMirrorEvents env true all
            (build_refspecs (load_ref_updates env.refsFile).1)) := by
      simp only [sync]
      rw [hm', ho, hu', hc, hcont]
      simp
    rw [hsync]
    constructor
    · rw [attemptNames_append, attemptNames_flatMap]
      simp [attemptNames]
    · rw [warnEvents_append, warnEvents_flatMap]
      simp [warnEvents, hIW, hWW]
  · simp only [should_continue_on_origin_reject, Option.getD_some, Bool.or_eq_true,
      beq_iff_eq]
    tauto

/-- Two mirrors where the push to `echo-a` raises and the push to `echo-b`
succeeds, used for the concrete C7 scenario. -/
def c7ScenarioEnv : GitEnv :=
  ⟨str "/repo", [str "echo-a", str "echo-b"], none, none,
   fun _ _ => Except.error (),
   fun n _ => if n == str "echo-a" then some (str "boom") else none⟩

/-- C7: push outcomes never influence which mirrors are attempted — for any
two push oracles the attempted-mirror list of `sync` is identical (one
mirror's failure is caught and every remaining mirror is still tried) — and
in the concrete two-mirror scenario where the first push raises and the
second succeeds, the session attempts both and reports exactly one failure
followed by one success. -/
theorem c7_push_failure_isolation :
    (∀ (env : GitEnv) (bg all : Bool) (origin : PyStr)
        (f g : PyStr → PushMode → Option PyStr),
        attemptNames (sync ⟨env.workingDir, env.remotes, env.refsFile,
            env.continueEnv, env.lsRemote, f⟩ bg all origin) =
        attemptNames (sync ⟨env.workingDir, env.remotes, env.refsFile,
            env.continueEnv, env.lsRemote, g⟩ bg all origin)) ∧
    sync c7ScenarioEnv false false (str "origin") =
      [Event.pushAttempt (str "echo-a") PushMode.plain,
       Event.console (str "[red]Failed to sync echo-a: boom[/red]"),
       Event.pushAttempt (str "echo-b") PushMode.plain,
       Event.console (str "[green]✔ Synced echo-b[/green]")] := by
  constructor
  · intro env bg all origin f g
    obtain ⟨preF, hF, haF, -⟩ := sync_events_split
      ⟨env.workingDir, env.remotes, env.refsFile, env.continueEnv, env.lsRemote, f⟩
      bg all origin
    obtain ⟨preG, hG, haG, -⟩ := sync_events_split
      ⟨env.workingDir, env.remotes, env.refsFile, env.continueEnv, env.lsRemote, g⟩
      bg all origin
    rw [hF, hG, attemptNames_append, attemptNames_append, haF, haG]
    have hgate : syncPushGate ⟨env.workingDir, env.remotes, env.refsFile,
        env.continueEnv, env.lsRemote, g⟩ bg origin =
      syncPushGate ⟨env.workingDir, env.remotes, env.refsFile,
        env.continueEnv, env.lsRemote, f⟩ bg origin := rfl
    rw [hgate]
    by_cases hg : syncPushGate ⟨env.workingDir, env.remotes, env.refsFile,
        env.continueEnv, env.lsRemote, f⟩ bg origin = true
    · simp [hg, attemptNames_flatMap]
    · have hg' : syncPushGate ⟨env.workingDir, env.remotes, env.refsFile,
          env.continueEnv, env.lsRemote, f⟩ bg origin = false := by simpa using hg
      simp [hg']
  · decide

/-- Environment for the concrete C10 scenario: one mirror, a captured
non-deletion update whose tip the origin reports immediately. -/
def c10ScenarioEnv : GitEnv :=
  ⟨str "/repo", [str "echo-a"],
   some (Except.ok (str "refs/heads/m abcd refs/heads/m eeee")), none,
   fun _ _ => Except.ok (str "abcd\trefs/heads/m"), fun _ _ => none⟩

/-- C10: a foreground `sync` never invokes the origin confirmation poller
(for any environment, origin and `--all` flag), a background `sync` with an
empty captured update set never invokes it either, and in a background run
with a non-empty captured set it is invoked. -/
theorem c10_confirmation_only_background_nonempty :
    (∀ (env : GitEnv) (all : Bool) (origin : PyStr),
        (sync env false all origin).filter Event.isConfirm = []) ∧
    (∀ (env : GitEnv) (all : Bool) (origin : PyStr),
        (load_ref_updates env.refsFile).1 = [] →
        (sync env true all origin).filter Event.isConfirm = []) ∧
    (sync c10ScenarioEnv true false (str "origin")).filter Event.isConfirm =
      [Event.confirmCall (str "origin") true] := by
  refine ⟨fun env all origin => ?_, fun env all origin hu => ?_, by decide⟩
  · obtain ⟨pre, hs, -, hconf⟩ := sync_events_split env false all origin
    rw [hs, List.filter_append, hconf (Or.inl rfl)]
    by_cases hg : syncPushGate env false origin = true
    · simp [hg, confirmFilter_flatMap]
    · have hg' : syncPushGate env false origin = false := by simpa using hg
      simp [hg']
  · obtain ⟨pre, hs, -, hconf⟩ := sync_events_split env true all origin
    rw [hs, List.filter_append, hconf (Or.inr hu)]
    by_cases hg : syncPushGate env true origin = true
    · simp [hg, confirmFilter_flatMap]
    · have hg' : syncPushGate env true origin = false := by simpa using hg
      simp [hg']

/-- Background environment with no `--refs-file` for the C10 witness. -/
def c10WitnessEnv : GitEnv :=
  ⟨str "/repo", [str "echo-a"], none, none,
   fun _ _ => Except.error (), fun _ _ => none⟩

theorem c10_confirmation_only_background_nonempty_witness :
    (sync c10WitnessEnv true false (str "origin")).filter Event.isConfirm = [] :=
  c10_confirmation_only_background_nonempty.2.1 c10WitnessEnv false (str "origin") rfl

/-- Background environment for the C3 witness: one mirror, one captured
non-deletion update, an always-failing tip lookup (so confirmation times
out), override unset. -/
def c3WitnessEnv : GitEnv :=
  ⟨str "/repo", [str "echo-a"],
   some (Except.ok (str "refs/heads/m aaaa refs/heads/m bbbb")),
   none, fun _ _ => Except.error (), fun _ _ => none⟩

/-- Same as `c3WitnessEnv` but with the override variable set to `1`. -/
def c3WitnessEnvCont : GitEnv :=
  ⟨str "/repo", [str "echo-a"],
   some (Except.ok (str "refs/heads/m aaaa refs/heads/m bbbb")),
   some (str "1"), fun _ _ => Except.error (), fun _ _ => none⟩

theorem c3_confirmation_timeout_policy_witness :
    (attemptNames (sync c3WitnessEnv true false (str "origin")) = [] ∧
     warnEvents (sync c3WitnessEnv true false (str "origin")) ≠ []) ∧
    (attemptNames (sync c3WitnessEnvCont true false (str "origin")) =
       c3WitnessEnvCont.remotes.filter is_mirror_remote ∧
     warnEvents (sync c3WitnessEnvCont true false (str "origin")) ≠ []) ∧
    (should_continue_on_origin_reject (some (str " TRUE ")) = true ↔
      (pyLower (pyStrip (str " TRUE ")) = str "1" ∨
       pyLower (pyStrip (str " TRUE ")) = str "true" ∨
       pyLower (pyStrip (str " TRUE ")) = str "yes" ∨
       pyLower (pyStrip (str " TRUE ")) = str "on")) :=
  ⟨(c3_confirmation_timeout_policy c3WitnessEnv (str "origin") false
      (by decide) (by decide) (by decide) (by decide)).1 (by decide),
   (c3_confirmation_timeout_policy c3WitnessEnvCont (str "origin") false
      (by decide) (by decide) (by decide) (by decide)).2.1 (by decide),
   (c3_confirmation_timeout_policy c3WitnessEnv (str "origin") false
      (by decide) (by decide) (by decide) (by decide)).2.2 (str " TRUE ")⟩
